import Mathlib

/-!
Shallow embedding of the asitop_InRust telemetry pipeline
(src/powermetrics.rs and src/main.rs).

Modelling conventions:
* Rust f64/f32 values are modelled as exact rationals (ℚ).  All float
  operations appearing in the embedded code (add, sub, mul, div, clamp,
  max) are exact on the inputs the theorems use.
* Rust float `.round()` rounds half away from zero; the subsequent
  `as u64` cast saturates negatives to 0.  Both are modelled together
  by rustRoundU64.  The `is_finite` guards of the source are vacuous
  in the rational model (every rational is finite), so the
  corresponding early-return-0 branches are omitted.
* u64 / u32 counters are modelled as ℕ (no operation in the embedded
  code can overflow: counters only grow by 1 and are reset at small
  bounds; integer division and sums of percentages stay far below
  2^64 for any input a plist record can carry, and the theorems below
  never rely on wraparound behaviour).
* SystemTime / plist Date timestamps are modelled as ℕ with the usual
  total order, matching the source's use of `<=` only.
-/

/-- Rust `x.round() as u64` on a float modelled as ℚ: round half away
from zero, then saturate negatives to 0 (Rust float→int casts saturate). -/
def rustRoundU64 (q : ℚ) : ℕ :=
  if q ≤ 0 then 0 else (⌊q + 1/2⌋).toNat

/-- Embeds powermetrics.rs `ratio_to_pct`: rescale ratios given as 0–100
down to 0–1, clamp to [0,1], then `((1.0 - ratio) * 100.0).round() as u64`. -/
def ratio_to_pct (idle_ratio : ℚ) : ℕ :=
  let ratio := if idle_ratio > 1 then idle_ratio / 100 else idle_ratio
  let ratio := min (max ratio 0) 1
  rustRoundU64 ((1 - ratio) * 100)

/-- Embeds powermetrics.rs `display_freq`: nonpositive (or non-finite)
input yields 0; values ≥ 100000 are taken as Hz and divided by 1e6;
smaller values are taken as already MHz; result rounded to u64. -/
def display_freq (freq_hz : ℚ) : ℕ :=
  if freq_hz ≤ 0 then 0
  else if freq_hz ≥ 100000 then rustRoundU64 (freq_hz / 1000000)
  else rustRoundU64 freq_hz

/-- Rust `name.starts_with(c)` for a single char pattern. -/
def startsWithChar (s : String) (c : Char) : Bool :=
  match s.data with
  | [] => false
  | c0 :: _ => c0 == c

/-- Rust `name.starts_with([c, d])` for a two-char pattern slice:
true when the first character is one of the two. -/
def startsWithEither (s : String) (c d : Char) : Bool :=
  match s.data with
  | [] => false
  | c0 :: _ => c0 == c || c0 == d

/-- Per-core display record (powermetrics.rs `CoreMetrics`). -/
structure CoreMetrics where
  id : ℕ
  active_pct : ℕ
  freq_mhz : ℕ
deriving DecidableEq

/-- Per-cluster record kept for aggregation (powermetrics.rs `ClusterData`). -/
structure ClusterData where
  name : String
  active_pct : ℕ
  freq_mhz : ℕ
deriving DecidableEq

/-- Embeds powermetrics.rs `core_average`: unweighted integer average of
the cores' active percentages, 0 for an empty list. -/
def core_average (cores : List CoreMetrics) : ℕ :=
  if cores.isEmpty then 0
  else (cores.map (fun c => c.active_pct)).sum / cores.length

/-- Embeds powermetrics.rs `core_max_freq`: `iter().max().unwrap_or(0)`. -/
def core_max_freq (cores : List CoreMetrics) : ℕ :=
  (cores.map (fun c => c.freq_mhz)).foldr max 0

/-- Embeds powermetrics.rs `cluster_stats`: if a cluster literally named
`"{pfx}-Cluster"` is found, return its active%/freq, each filtered to
`some` only when nonzero (and never fall through to the prefix scan);
otherwise average active% and take max freq over all clusters whose name
starts with `pfx`, again filtered to nonzero; `(none, none)` when no
cluster matches. -/
def cluster_stats (clusters : List ClusterData) (pfx : Char) :
    Option ℕ × Option ℕ :=
  let primary_label := String.mk [pfx] ++ "-Cluster"
  match clusters.find? (fun c => c.name == primary_label) with
  | some primary =>
      ((if primary.active_pct > 0 then some primary.active_pct else none),
       (if primary.freq_mhz > 0 then some primary.freq_mhz else none))
  | none =>
      let matching := clusters.filter (fun c => startsWithChar c.name pfx)
      if matching.length > 0 then
        let active_sum := (matching.map (fun c => c.active_pct)).sum
        let freq_max := (matching.map (fun c => c.freq_mhz)).foldr max 0
        ((if active_sum > 0 then some (active_sum / matching.length) else none),
         (if freq_max > 0 then some freq_max else none))
      else (none, none)

/-- Embeds powermetrics.rs `aggregate_cluster`: active% is the core
average when it is nonzero, else the cluster-level active statistic
(default 0); frequency is the cluster-level statistic when present,
else the max core frequency. -/
def aggregate_cluster (clusters : List ClusterData) (cores : List CoreMetrics)
    (pfx : Char) : ℕ × ℕ :=
  let core_avg := core_average cores
  let core_freq := core_max_freq cores
  let stats := cluster_stats clusters pfx
  let active := if core_avg > 0 then core_avg else stats.1.getD 0
  let freq := stats.2.getD core_freq
  (active, freq)

/-- Raw per-core plist record (powermetrics.rs `RawCore`). -/
structure RawCore where
  cpu : ℕ
  freq_hz : ℚ
  idle_ratio : ℚ

/-- Raw per-cluster plist record (powermetrics.rs `RawCluster`). -/
structure RawCluster where
  name : String
  freq_hz : ℚ
  idle_ratio : ℚ
  cpus : List RawCore

/-- Raw GPU plist record (powermetrics.rs `RawGpu`). -/
structure RawGpu where
  freq_hz : ℚ
  idle_ratio : ℚ

/-- Raw processor plist record (powermetrics.rs `RawProcessor`). -/
structure RawProcessor where
  clusters : List RawCluster
  ane_energy : ℚ
  cpu_energy : ℚ
  gpu_energy : ℚ
  combined_power : ℚ

/-- One decoded powermetrics plist record (powermetrics.rs `RawSnapshot`). -/
structure RawSnapshot where
  timestamp : ℕ
  thermal_pressure : String
  processor : RawProcessor
  gpu : RawGpu

/-- Converted GPU metrics (powermetrics.rs `GpuMetrics`). -/
structure GpuMetrics where
  active_pct : ℕ := 0
  freq_mhz : ℕ := 0
deriving DecidableEq

/-- Converted CPU metrics (powermetrics.rs `CpuMetrics`). -/
structure CpuMetrics where
  e_cluster_active : ℕ := 0
  e_cluster_freq_mhz : ℕ := 0
  p_cluster_active : ℕ := 0
  p_cluster_freq_mhz : ℕ := 0
  e_cores : List CoreMetrics := []
  p_cores : List CoreMetrics := []
  cpu_w : ℚ := 0
  gpu_w : ℚ := 0
  ane_w : ℚ := 0
  package_w : ℚ := 0
deriving DecidableEq

/-- A fully converted reading (powermetrics.rs `PowermetricsReading`). -/
structure PowermetricsReading where
  timestamp : ℕ
  thermal_pressure : String
  cpu : CpuMetrics
  gpu : GpuMetrics
deriving DecidableEq

/-- Conversion of one raw core, as inlined in `convert_snapshot`. -/
def convert_core (core : RawCore) : CoreMetrics :=
  { id := core.cpu
    active_pct := ratio_to_pct core.idle_ratio
    freq_mhz := display_freq core.freq_hz }

/-- Conversion of one raw cluster to its `ClusterData`, as inlined in
`convert_snapshot`. -/
def cluster_data_of (cl : RawCluster) : ClusterData :=
  { name := cl.name
    active_pct := ratio_to_pct cl.idle_ratio
    freq_mhz := display_freq cl.freq_hz }

/-- The classification loop of `convert_snapshot`:  walks the clusters in
order, pushing E/e-named clusters to the first list, otherwise P/p-named
clusters to the second (clusters with any other name go to neither), and
pushing each cluster's converted cores to `e_cores` when the cluster name
starts with E/e, and to `p_cores` otherwise.  Returns
`(e_clusters, p_clusters, e_cores, p_cores)`. -/
def classify_clusters :
    List RawCluster →
      List ClusterData × List ClusterData × List CoreMetrics × List CoreMetrics
  | [] => ([], [], [], [])
  | cl :: rest =>
    let is_e := startsWithEither cl.name 'E' 'e'
    let is_p := startsWithEither cl.name 'P' 'p'
    let this_e_cl := if is_e then [cluster_data_of cl] else []
    let this_p_cl := if !is_e && is_p then [cluster_data_of cl] else []
    let core_list := cl.cpus.map convert_core
    let this_e_co := if is_e then core_list else []
    let this_p_co := if is_e then [] else core_list
    let tail_part := classify_clusters rest
    (this_e_cl ++ tail_part.1, this_p_cl ++ tail_part.2.1,
     this_e_co ++ tail_part.2.2.1, this_p_co ++ tail_part.2.2.2)

/-- Embeds powermetrics.rs `convert_snapshot`. -/
def convert_snapshot (raw : RawSnapshot) : PowermetricsReading :=
  let parts := classify_clusters raw.processor.clusters
  let e_agg := aggregate_cluster parts.1 parts.2.2.1 'E'
  let p_agg := aggregate_cluster parts.2.1 parts.2.2.2 'P'
  { timestamp := raw.timestamp
    thermal_pressure := raw.thermal_pressure
    cpu :=
      { e_cluster_active := e_agg.1
        e_cluster_freq_mhz := e_agg.2
        p_cluster_active := p_agg.1
        p_cluster_freq_mhz := p_agg.2
        e_cores := parts.2.2.1
        p_cores := parts.2.2.2
        cpu_w := raw.processor.cpu_energy / 1000
        gpu_w := raw.processor.gpu_energy / 1000
        ane_w := raw.processor.ane_energy / 1000
        package_w := raw.processor.combined_power / 1000 }
    gpu :=
      { active_pct := ratio_to_pct raw.gpu.idle_ratio
        freq_mhz := display_freq raw.gpu.freq_hz } }

/-- Rust `data.split(|b| *b == 0)` on the byte buffer, bytes modelled as
ℕ: the maximal runs between sentinel bytes, empty runs included
(these are the Rust slice-split semantics). -/
def split_frames : List ℕ → List (List ℕ)
  | [] => [[]]
  | b :: rest =>
    if b = 0 then [] :: split_frames rest
    else
      match split_frames rest with
      | [] => [[b]]
      | c :: cs => (b :: c) :: cs

/-- Outcome of the file-system interaction at the top of
`parse_powermetrics`, abstracting the artifact's state: the artifact may
be absent (`File::open` fails), have zero length, or deliver `bytes`
from the bounded tail read, with `clean = false` recording that
`read_to_end` returned an error after filling `bytes`. -/
inductive ReadOutcome where
  | noFile
  | emptyFile
  | readData (bytes : List ℕ) (clean : Bool)

/-- Embeds powermetrics.rs `parse_powermetrics`, with plist decoding of
one fragment abstracted as the `decode` parameter (a fragment decodes to
`some` raw record exactly when `plist::from_reader` succeeds on it).
Absent or empty artifact yields `Ok(None)`; a read error with no data at
all is the only error path; otherwise the window is split on the
null-byte sentinel, empty fragments are dropped, and fragments are tried
from the most recent backward, the first that decodes being converted
and returned; `Ok(None)` when no fragment decodes. -/
def parse_powermetrics (decode : List ℕ → Option RawSnapshot) :
    ReadOutcome → Except String (Option PowermetricsReading)
  | .noFile => .ok none
  | .emptyFile => .ok none
  | .readData bytes clean =>
    if bytes.isEmpty && !clean then .error "failed to read powermetrics chunk"
    else if bytes.isEmpty then .ok none
    else
      match ((split_frames bytes).filter (fun c => !c.isEmpty)).reverse.findSome? decode with
      | some snapshot => .ok (some (convert_snapshot snapshot))
      | none => .ok none

/-- Embeds powermetrics.rs `History`: bounded FIFO for the sparkline. -/
structure History where
  data : List ℚ
  max_len : ℕ
deriving DecidableEq

/-- History constructor (`History::new`). -/
def History.new (max_len : ℕ) : History :=
  { data := [], max_len := max_len }

/-- Embeds `History::push`: drop the front when at capacity, append. -/
def History.push (h : History) (value : ℚ) : History :=
  let data := if h.data.length = h.max_len then h.data.tail else h.data
  { h with data := data ++ [value] }

/-- Embeds `History::values`: the buffer oldest-to-newest. -/
def History.values (h : History) : List ℚ :=
  h.data

/-- Embeds powermetrics.rs `RollingAverage`: bounded queue with a
running sum and a push counter used for periodic resummation. -/
structure RollingAverage where
  data : List ℚ
  max_len : ℕ
  sum : ℚ
  push_count : ℕ
deriving DecidableEq

/-- RollingAverage constructor (`RollingAverage::new`). -/
def RollingAverage.new (max_len : ℕ) : RollingAverage :=
  { data := [], max_len := max_len, sum := 0, push_count := 0 }

/-- Embeds `RollingAverage::push`: no-op when the window length is 0;
otherwise evict the oldest element when at capacity (subtracting it from
the running sum), append the new value, add it to the sum, and every
1000 pushes recompute the sum over the whole buffer. -/
def RollingAverage.push (r : RollingAverage) (value : ℚ) : RollingAverage :=
  if r.max_len = 0 then r
  else
    let r :=
      if r.data.length = r.max_len then
        match r.data with
        | [] => r
        | front :: rest => { r with data := rest, sum := r.sum - front }
      else r
    let r := { r with sum := r.sum + value, data := r.data ++ [value],
                      push_count := r.push_count + 1 }
    if r.push_count ≥ 1000 then
      { r with sum := r.data.sum, push_count := 0 }
    else r

/-- Embeds `RollingAverage::average`: sum over length, 0 when empty. -/
def RollingAverage.average (r : RollingAverage) : ℚ :=
  if r.data.isEmpty then 0 else r.sum / (r.data.length : ℚ)

/-- Command-line configuration (config.rs `Cli`). -/
structure Cli where
  interval : ℕ
  color : ℕ
  avg : ℕ
  show_cores : Bool
  max_count : ℕ
deriving DecidableEq

/-- Detected device information (soc.rs `SocInfo`).  main.rs reads an
`ane_max_power` member in `update_power_stats`, so the model carries it
alongside the fields declared in soc.rs. -/
structure SocInfo where
  name : String
  e_core_count : ℕ
  p_core_count : ℕ
  gpu_core_count : ℕ
  cpu_max_power : ℚ
  gpu_max_power : ℚ
  ane_max_power : ℚ
deriving DecidableEq

/-- Thermal warning level (thermal.rs `ThermalLevel`). -/
inductive ThermalLevel where
  | Normal
  | Danger
  | Crisis
  | Unknown (code : ℕ)
deriving DecidableEq

/-- Memory statistics value struct (memory.rs `MemoryStats`). -/
structure MemoryStats where
  total_gb : ℚ
  used_gb : ℚ
  used_percent : ℕ
  swap_total_gb : ℚ
  swap_used_gb : ℚ
deriving DecidableEq

/-- Network/disk throughput value struct (io_stats.rs `IoStats`). -/
structure IoStats where
  net_in_mbps : ℚ
  net_out_mbps : ℚ
  disk_read_mbps : ℚ
  disk_write_mbps : ℚ
deriving DecidableEq

/-- Values produced by the collaborator queries that main.rs performs
while integrating a reading (`memory_reader.read()`,
`read_warning_level()`, `io_sampler.sample()`); they are platform reads,
so the embedding passes them in explicitly. -/
structure Env where
  memory : MemoryStats
  thermal : Option ThermalLevel
  io : IoStats

/-- Session state (main.rs `AppState`). -/
structure AppState where
  config : Cli
  soc : SocInfo
  color : ℕ
  memory_stats : MemoryStats
  cpu_metrics : CpuMetrics
  gpu_metrics : GpuMetrics
  io_stats : IoStats
  thermal_pressure : String
  thermal_level : Option ThermalLevel
  last_timestamp : Option ℕ
  power_history : History
  cpu_avg : RollingAverage
  gpu_avg : RollingAverage
  package_avg : RollingAverage
  cpu_peak : ℚ
  gpu_peak : ℚ
  package_peak : ℚ
  cpu_power : ℚ
  gpu_power : ℚ
  package_power : ℚ
  ane_percent : ℕ
  ane_power : ℚ
  samples_taken : ℕ

/-- Embeds main.rs `AppState::update_power_stats`: divide the converted
energy figures by `max(interval, 1)`, derive the ANE percentage, raise
the peaks, push the powers into their rolling averages and the combined
CPU+GPU power into the history. -/
def AppState.update_power_stats (s : AppState) : AppState :=
  let interval : ℚ := ((max s.config.interval 1 : ℕ) : ℚ)
  let cpu_power := s.cpu_metrics.cpu_w / interval
  let gpu_power := s.cpu_metrics.gpu_w / interval
  let package_power := s.cpu_metrics.package_w / interval
  let ane_power := s.cpu_metrics.ane_w / interval
  let ane_max := max s.soc.ane_max_power 1
  let ane_percent := rustRoundU64 (min (max (ane_power / ane_max * 100) 0) 100)
  { s with
    cpu_power := cpu_power
    gpu_power := gpu_power
    package_power := package_power
    ane_power := ane_power
    ane_percent := ane_percent
    cpu_peak := max s.cpu_peak cpu_power
    gpu_peak := max s.gpu_peak gpu_power
    package_peak := max s.package_peak package_power
    cpu_avg := s.cpu_avg.push cpu_power
    gpu_avg := s.gpu_avg.push gpu_power
    package_avg := s.package_avg.push package_power
    power_history := s.power_history.push (cpu_power + gpu_power) }

/-- The acceptance body of main.rs `AppState::update_if_new` (everything
after the staleness early-return): record the reading, refresh the
collaborator-sourced fields, update power statistics, and increment the
sample counter. -/
def AppState.accept_reading (s : AppState) (reading : PowermetricsReading)
    (env : Env) : AppState :=
  let s := { s with
    last_timestamp := some reading.timestamp
    thermal_pressure := reading.thermal_pressure
    cpu_metrics := reading.cpu
    gpu_metrics := reading.gpu
    memory_stats := env.memory
    thermal_level := env.thermal }
  let s := s.update_power_stats
  let s := { s with io_stats := env.io }
  { s with samples_taken := s.samples_taken + 1 }

/-- Embeds main.rs `AppState::update_if_new`: a reading is rejected (state
untouched, `false` returned) exactly when `last_timestamp` is set and the
reading's timestamp is `<=` it; otherwise the reading is integrated and
`true` returned. -/
def AppState.update_if_new (s : AppState) (reading : PowermetricsReading)
    (env : Env) : Bool × AppState :=
  match s.last_timestamp with
  | some last =>
    if reading.timestamp ≤ last then (false, s)
    else (true, s.accept_reading reading env)
  | none => (true, s.accept_reading reading env)

/-- Embeds main.rs `AppState::apply_reading` (used for the very first
sample): like acceptance but without the memory-stats refresh and with
no staleness check. -/
def AppState.apply_reading (s : AppState) (reading : PowermetricsReading)
    (env : Env) : AppState :=
  let s := { s with
    last_timestamp := some reading.timestamp
    thermal_pressure := reading.thermal_pressure
    cpu_metrics := reading.cpu
    gpu_metrics := reading.gpu
    thermal_level := env.thermal }
  let s := s.update_power_stats
  let s := { s with io_stats := env.io }
  { s with samples_taken := s.samples_taken + 1 }

/-- The sampling block of one `run_ui` loop iteration (main.rs lines
187–194): when the extractor produced a reading, feed it through
`update_if_new`; otherwise the state is untouched. -/
def run_ui_sample_step (s : AppState) (reading? : Option PowermetricsReading)
    (env : Env) : AppState :=
  match reading? with
  | some reading => (s.update_if_new reading env).2
  | none => s

/-- The restart block of one `run_ui` loop iteration (main.rs lines
196–202): when `max_count > 0` and `samples_taken` has reached it, a
fresh session token replaces the timecode, the supervisor restart is
requested (the returned flag), and `samples_taken` / `last_timestamp`
are reset.  `fresh` is the token `new_timecode()` would produce. -/
def run_ui_restart_check (s : AppState) (timecode : ℕ) (fresh : ℕ) :
    AppState × ℕ × Bool :=
  if 0 < s.config.max_count ∧ s.config.max_count ≤ s.samples_taken then
    ({ s with samples_taken := 0, last_timestamp := none }, fresh, true)
  else (s, timecode, false)

/-- One full state-updating pass of the `run_ui` loop body: the sampling
block followed by the restart check. -/
def run_ui_tick (s : AppState) (timecode : ℕ)
    (reading? : Option PowermetricsReading) (env : Env) (fresh : ℕ) :
    AppState × ℕ × Bool :=
  run_ui_restart_check (run_ui_sample_step s reading? env) timecode fresh

/-- One power gauge of the presentation snapshot (ui.rs `PowerSnapshot`,
filled in main.rs `AppState::snapshot`). -/
structure PowerSnapshot where
  current : ℚ
  average : ℚ
  peak : ℚ
  percent_of_tdp : ℚ
deriving DecidableEq

/-- The CPU power gauge built by `AppState::snapshot`. -/
def AppState.snapshot_cpu_power (s : AppState) : PowerSnapshot :=
  { current := s.cpu_power
    average := s.cpu_avg.average
    peak := s.cpu_peak
    percent_of_tdp :=
      if s.soc.cpu_max_power > 0 then
        min (max (s.cpu_power / s.soc.cpu_max_power * 100) 0) 999
      else 0 }

/-- The GPU power gauge built by `AppState::snapshot`. -/
def AppState.snapshot_gpu_power (s : AppState) : PowerSnapshot :=
  { current := s.gpu_power
    average := s.gpu_avg.average
    peak := s.gpu_peak
    percent_of_tdp :=
      if s.soc.gpu_max_power > 0 then
        min (max (s.gpu_power / s.soc.gpu_max_power * 100) 0) 999
      else 0 }

/-- The package power gauge built by `AppState::snapshot`. -/
def AppState.snapshot_package_power (s : AppState) : PowerSnapshot :=
  { current := s.package_power
    average := s.package_avg.average
    peak := s.package_peak
    percent_of_tdp := 0 }

/-- Concrete configuration used by witness instantiations
(interval 1s, restart after 2 samples). -/
def cli_fixture : Cli :=
  { interval := 1, color := 2, avg := 30, show_cores := false, max_count := 2 }

/-- Concrete device description used by witness instantiations. -/
def soc_fixture : SocInfo :=
  { name := "Apple M1", e_core_count := 4, p_core_count := 4,
    gpu_core_count := 8, cpu_max_power := 20, gpu_max_power := 20,
    ane_max_power := 8 }

/-- Concrete memory statistics used by witness instantiations. -/
def memory_fixture : MemoryStats :=
  { total_gb := 16, used_gb := 8, used_percent := 50,
    swap_total_gb := 2, swap_used_gb := 1 }

/-- Concrete collaborator environment used by witness instantiations. -/
def env_fixture : Env :=
  { memory := memory_fixture, thermal := some .Normal,
    io := { net_in_mbps := 0, net_out_mbps := 0,
            disk_read_mbps := 0, disk_write_mbps := 0 } }

/-- Concrete freshly constructed session state (the shape `AppState::new`
produces) used by witness instantiations. -/
def state_fixture : AppState :=
  { config := cli_fixture, soc := soc_fixture, color := 2
    memory_stats := memory_fixture
    cpu_metrics := {}, gpu_metrics := {}
    io_stats := { net_in_mbps := 0, net_out_mbps := 0,
                  disk_read_mbps := 0, disk_write_mbps := 0 }
    thermal_pressure := "Nominal", thermal_level := none
    last_timestamp := none
    power_history := History.new 120
    cpu_avg := RollingAverage.new 30
    gpu_avg := RollingAverage.new 30
    package_avg := RollingAverage.new 30
    cpu_peak := 0, gpu_peak := 0, package_peak := 0
    cpu_power := 0, gpu_power := 0, package_power := 0
    ane_percent := 0, ane_power := 0, samples_taken := 0 }

/-- Concrete reading with a chosen timestamp, used by witnesses. -/
def reading_fixture (ts : ℕ) : PowermetricsReading :=
  { timestamp := ts, thermal_pressure := "Nominal", cpu := {}, gpu := {} }

/-- The fixture state after two accepted samples (restart threshold
reached), used by witnesses. -/
def state_fixture_full : AppState :=
  { state_fixture with samples_taken := 2, last_timestamp := some 9 }

/-- Concrete raw record used by witnesses (2 J CPU, 0.5 J GPU, 0.1 J ANE,
3 J package over the interval). -/
def raw_fixture : RawSnapshot :=
  { timestamp := 3, thermal_pressure := "Nominal"
    processor := { clusters := [], ane_energy := 100, cpu_energy := 2000,
                   gpu_energy := 500, combined_power := 3000 }
    gpu := { freq_hz := 0, idle_ratio := 0 } }

/-- Concrete fragment decoder used by witnesses: only the byte fragment
`[1]` decodes (to `raw_fixture`). -/
def decode_fixture : List ℕ → Option RawSnapshot :=
  fun c => if c = [1] then some raw_fixture else none

/-- Rounding a natural number (cast to ℚ) is the identity. -/
theorem rustRoundU64_natCast (n : ℕ) : rustRoundU64 ((n : ℕ) : ℚ) = n := by
  unfold rustRoundU64
  rcases Nat.eq_zero_or_pos n with h | h
  · subst h; norm_num
  · rw [if_neg (not_le.mpr (by exact_mod_cast h : (0 : ℚ) < (n : ℚ)))]
    have hfl : ⌊((n : ℚ) + 1/2)⌋ = (n : ℤ) := by
      rw [show ((n : ℚ)) = (((n : ℤ) : ℤ) : ℚ) by push_cast; ring]
      rw [Int.floor_int_add]
      norm_num
    rw [hfl]
    exact Int.toNat_natCast n

/-- Rounding respects a natural upper bound on its input. -/
theorem rustRoundU64_le_of_le (q : ℚ) (n : ℕ) (h : q ≤ (n : ℚ)) :
    rustRoundU64 q ≤ n := by
  unfold rustRoundU64
  split
  · exact Nat.zero_le n
  · have h2 : ⌊q + 1/2⌋ ≤ (n : ℤ) := by
      have hq : q + 1/2 ≤ (n : ℚ) + 1/2 := by linarith
      calc ⌊q + 1/2⌋ ≤ ⌊(n : ℚ) + 1/2⌋ := Int.floor_le_floor hq
        _ = (n : ℤ) := by
            rw [show ((n : ℚ)) = (((n : ℤ) : ℤ) : ℚ) by push_cast; ring]
            rw [Int.floor_int_add]; norm_num
    exact Int.toNat_le.mpr h2

/-- Claim C6: for every idle-ratio input r, `ratio_to_pct r` lies in
[0,100] (values above 1 are rescaled by 1/100, the ratio is clamped to
[0,1], and the result is round((1-ratio)·100)); in particular
`ratio_to_pct 0 = 100` and `ratio_to_pct 1 = 0`. -/
theorem ratio_to_pct_in_range (r : ℚ) :
    0 ≤ ratio_to_pct r ∧ ratio_to_pct r ≤ 100 ∧
    ratio_to_pct 0 = 100 ∧ ratio_to_pct 1 = 0 := by
  refine ⟨Nat.zero_le _, ?_, ?_, ?_⟩
  · unfold ratio_to_pct
    apply rustRoundU64_le_of_le
    have h0 : (0 : ℚ) ≤ min (max (if r > 1 then r / 100 else r) 0) 1 :=
      le_min (le_max_right _ 0) (by norm_num)
    push_cast
    nlinarith [h0]
  · unfold ratio_to_pct rustRoundU64; norm_num; try rfl
  · unfold ratio_to_pct rustRoundU64; norm_num; try rfl

/-- Claim C7 (corrected): frequency normalization is idempotent for every
input whose normalized value is below the 100000 Hz-detection threshold,
i.e. `display_freq (display_freq x) = display_freq x` whenever
`display_freq x < 100000`; inputs normalizing to at least 100000 MHz
re-trigger the Hz heuristic on the second application and are
double-converted. -/
theorem display_freq_idempotent_below (x : ℚ)
    (h : display_freq x < 100000) :
    display_freq ((display_freq x : ℕ) : ℚ) = display_freq x := by
  generalize hg : display_freq x = y at h ⊢
  rcases Nat.eq_zero_or_pos y with h0 | h0
  · subst h0
    unfold display_freq
    norm_num
  · unfold display_freq
    rw [if_neg (not_le.mpr (by exact_mod_cast h0 : (0 : ℚ) < (y : ℚ)))]
    rw [if_neg (not_le.mpr (by exact_mod_cast h : ((y : ℕ) : ℚ) < 100000))]
    exact rustRoundU64_natCast _

/-- Claim C7 witness: at 2.4 GHz expressed in Hz the normalized value is
below the threshold and normalization is idempotent. -/
theorem display_freq_idempotent_below_witness :
    display_freq 2400000000 < 100000 ∧
    display_freq ((display_freq 2400000000 : ℕ) : ℚ)
      = display_freq 2400000000 := by
  have h : display_freq 2400000000 < 100000 := by
    have hv : display_freq 2400000000 = 2400 := by
      unfold display_freq rustRoundU64; norm_num; try rfl
    rw [hv]; decide
  exact ⟨h, display_freq_idempotent_below 2400000000 h⟩

/-- Claim C7 counterexample: the input 10^12 (1 THz in Hz, a valid input
the heuristic takes as Hz) normalizes to 1000000 MHz, and a second
application of `display_freq` yields 1, not 1000000 — idempotence fails
as universally stated. -/
theorem display_freq_not_idempotent_at_1e12 :
    display_freq ((display_freq 1000000000000 : ℕ) : ℚ)
      ≠ display_freq 1000000000000 := by
  have h1 : display_freq 1000000000000 = 1000000 := by
    unfold display_freq rustRoundU64; norm_num; try rfl
  have h2 : display_freq (((1000000 : ℕ) : ℚ)) = 1 := by
    unfold display_freq rustRoundU64; push_cast; norm_num; try rfl
  rw [h1, h2]
  decide

/-- Claim C8: `RollingAverage.push` at capacity evicts the oldest
element, subtracting it from the running sum before appending the new
value and adding it; `average` is sum over current length, 0 when empty;
with window 3, pushing 10, 20, 30, 40 yields average 30. -/
theorem rolling_average_push_average (r : RollingAverage) (v : ℚ)
    (hsum : r.sum = r.data.sum) (hfull : r.data.length = r.max_len)
    (hpos : 0 < r.max_len) :
    (r.push v).data = r.data.tail ++ [v] ∧
    (r.push v).sum = r.sum - r.data.headI + v ∧
    (∀ q : RollingAverage, q.data = [] → q.average = 0) ∧
    (∀ q : RollingAverage, q.data ≠ [] →
      q.average = q.sum / (q.data.length : ℚ)) ∧
    (((((RollingAverage.new 3).push 10).push 20).push 30).push 40).average = 30 := by
  have haux1 : ∀ q : RollingAverage, q.data = [] → q.average = 0 := by
    intro q hq; unfold RollingAverage.average; rw [hq]; simp
  have haux2 : ∀ q : RollingAverage, q.data ≠ [] →
      q.average = q.sum / (q.data.length : ℚ) := by
    intro q hq; unfold RollingAverage.average
    rw [if_neg (by simpa using hq)]
  have hconc :
      (((((RollingAverage.new 3).push 10).push 20).push 30).push 40).average = 30 := by
    simp [RollingAverage.new, RollingAverage.push, RollingAverage.average]
    norm_num
  obtain ⟨data, ml, sum, pc⟩ := r
  simp only at hsum hfull hpos ⊢
  have hne : ml ≠ 0 := Nat.pos_iff_ne_zero.mp hpos
  cases data with
  | nil => simp at hfull; omega
  | cons a rest =>
    refine ⟨?_, ?_, haux1, haux2, hconc⟩
    · simp only [RollingAverage.push, if_neg hne, if_pos hfull]
      split <;> simp
    · simp only [RollingAverage.push, if_neg hne, if_pos hfull]
      simp only [List.sum_cons, List.headI] at hsum ⊢
      split <;> simp [hsum, List.sum_append]

/-- Claim C8 witness: the window-3 buffer holding 10, 20, 30 satisfies
the invariants, and the fourth push evicts 10 and yields average 30. -/
theorem rolling_average_push_average_witness :
    ((((RollingAverage.new 3).push 10).push 20).push 30).sum
      = ((((RollingAverage.new 3).push 10).push 20).push 30).data.sum ∧
    (((((RollingAverage.new 3).push 10).push 20).push 30).push 40).data
      = ((((RollingAverage.new 3).push 10).push 20).push 30).data.tail ++ [40] ∧
    (((((RollingAverage.new 3).push 10).push 20).push 30).push 40).average = 30 := by
  have hsum : ((((RollingAverage.new 3).push 10).push 20).push 30).sum
      = ((((RollingAverage.new 3).push 10).push 20).push 30).data.sum := by
    simp [RollingAverage.new, RollingAverage.push]
    norm_num
  have hfull : ((((RollingAverage.new 3).push 10).push 20).push 30).data.length
      = ((((RollingAverage.new 3).push 10).push 20).push 30).max_len := by
    simp [RollingAverage.new, RollingAverage.push]
  have hpos : 0 < ((((RollingAverage.new 3).push 10).push 20).push 30).max_len := by
    simp [RollingAverage.new, RollingAverage.push]
  obtain ⟨h1, _, _, _, h5⟩ :=
    rolling_average_push_average _ 40 hsum hfull hpos
  exact ⟨hsum, h1, h5⟩

/-- Claim C1 counterexample: with an E class containing the literal
cluster "E-Cluster" (active 50%, 1000 MHz) and one core reporting 70%,
the claim's priority order requires the cluster's nonzero active% (50)
to be used directly, but `aggregate_cluster` returns active% 70 — the
nonzero core average takes priority over the cluster statistic. -/
theorem aggregate_cluster_c1_counterexample :
    (aggregate_cluster [{ name := "E-Cluster", active_pct := 50, freq_mhz := 1000 }]
        [{ id := 4, active_pct := 70, freq_mhz := 900 }] 'E').1 ≠ 50 ∧
    aggregate_cluster [{ name := "E-Cluster", active_pct := 50, freq_mhz := 1000 }]
        [{ id := 4, active_pct := 70, freq_mhz := 900 }] 'E' = (70, 1000) := by
  constructor
  · decide
  · decide

/-- Claim C1 (corrected): the frequency follows the spec's priority order
(the literal "{prefix}-Cluster"'s nonzero frequency first — though its
mere presence short-circuits the class-wide maximum — then the class
maximum when nonzero, then the core maximum), but the active% puts the
unweighted core average FIRST whenever it is nonzero, consulting the
cluster-level statistics (primary cluster's nonzero active%, else the
class average when nonzero) only when the core average is zero; with no
data at any level the result is (0, 0). -/
theorem aggregate_cluster_order (clusters : List ClusterData)
    (cores : List CoreMetrics) (pfx : Char) :
    (core_average cores ≠ 0 →
      (aggregate_cluster clusters cores pfx).1 = core_average cores) ∧
    (∀ p, core_average cores = 0 →
      clusters.find? (fun c => c.name == String.mk [pfx] ++ "-Cluster") = some p →
      (aggregate_cluster clusters cores pfx).1
        = if 0 < p.active_pct then p.active_pct else 0) ∧
    (core_average cores = 0 →
      clusters.find? (fun c => c.name == String.mk [pfx] ++ "-Cluster") = none →
      (aggregate_cluster clusters cores pfx).1
        = (if 0 < ((clusters.filter (fun c => startsWithChar c.name pfx)).map
              (fun c => c.active_pct)).sum
           then ((clusters.filter (fun c => startsWithChar c.name pfx)).map
                  (fun c => c.active_pct)).sum
                / (clusters.filter (fun c => startsWithChar c.name pfx)).length
           else 0)) ∧
    (∀ p, clusters.find? (fun c => c.name == String.mk [pfx] ++ "-Cluster") = some p →
      (aggregate_cluster clusters cores pfx).2
        = if 0 < p.freq_mhz then p.freq_mhz else core_max_freq cores) ∧
    (clusters.find? (fun c => c.name == String.mk [pfx] ++ "-Cluster") = none →
      (aggregate_cluster clusters cores pfx).2
        = (if 0 < ((clusters.filter (fun c => startsWithChar c.name pfx)).map
              (fun c => c.freq_mhz)).foldr max 0
           then ((clusters.filter (fun c => startsWithChar c.name pfx)).map
                  (fun c => c.freq_mhz)).foldr max 0
           else core_max_freq cores)) ∧
    (aggregate_cluster [] [] pfx = (0, 0)) := by
  refine ⟨?_, ?_, ?_, ?_, ?_,
    by simp [aggregate_cluster, cluster_stats, core_average, core_max_freq]⟩
  · intro h
    simp only [aggregate_cluster]
    rw [if_pos (Nat.pos_iff_ne_zero.mpr h)]
  · intro p h hfind
    simp only [aggregate_cluster, cluster_stats, hfind]
    rw [if_neg (by omega : ¬ 0 < core_average cores)]
    split <;> simp
  · intro h hfind
    simp only [aggregate_cluster, cluster_stats, hfind]
    rw [if_neg (by omega : ¬ 0 < core_average cores)]
    split
    · split <;> simp
    · rename_i hlen
      have hm : clusters.filter (fun c => startsWithChar c.name pfx) = [] :=
        List.length_eq_zero.mp (by omega)
      simp [hm]
  · intro p hfind
    simp only [aggregate_cluster, cluster_stats, hfind]
    split <;> simp
  · intro hfind
    simp only [aggregate_cluster, cluster_stats, hfind]
    split
    · split <;> split <;> simp
    · rename_i hlen
      have hm : clusters.filter (fun c => startsWithChar c.name pfx) = [] :=
        List.length_eq_zero.mp (by omega)
      simp [hm]

/-- Claim C1 witness: with the literal "P-Cluster" (active 40%, 2000 MHz)
and one core at 30%/1500 MHz, the aggregated active% is the core average
30 and the aggregated frequency is the cluster's 2000. -/
theorem aggregate_cluster_order_witness :
    core_average [{ id := 0, active_pct := 30, freq_mhz := 1500 }] ≠ 0 ∧
    (aggregate_cluster [{ name := "P-Cluster", active_pct := 40, freq_mhz := 2000 }]
        [{ id := 0, active_pct := 30, freq_mhz := 1500 }] 'P').1
      = core_average [{ id := 0, active_pct := 30, freq_mhz := 1500 }] ∧
    (aggregate_cluster [{ name := "P-Cluster", active_pct := 40, freq_mhz := 2000 }]
        [{ id := 0, active_pct := 30, freq_mhz := 1500 }] 'P').2 = 2000 := by
  have h := aggregate_cluster_order
    [{ name := "P-Cluster", active_pct := 40, freq_mhz := 2000 }]
    [{ id := 0, active_pct := 30, freq_mhz := 1500 }] 'P'
  refine ⟨by decide, h.1 (by decide), ?_⟩
  have h4 := h.2.2.2.1
    { name := "P-Cluster", active_pct := 40, freq_mhz := 2000 } (by decide)
  rw [h4]
  decide

/-- The classification loop of `convert_snapshot`, characterized: E/e
clusters populate the first cluster list, non-E clusters whose name
starts with P/p populate the second (clusters with any other name go to
neither), E/e-cluster cores go to `e_cores`, and ALL other cores —
including those of clusters with unrecognized name prefixes — go to
`p_cores`, in cluster order. -/
theorem classify_clusters_spec (cls : List RawCluster) :
    (classify_clusters cls).1
      = (cls.filter (fun cl => startsWithEither cl.name 'E' 'e')).map cluster_data_of ∧
    (classify_clusters cls).2.1
      = (cls.filter (fun cl =>
          !startsWithEither cl.name 'E' 'e' && startsWithEither cl.name 'P' 'p')).map cluster_data_of ∧
    (classify_clusters cls).2.2.1
      = (cls.map (fun cl => if startsWithEither cl.name 'E' 'e'
            then cl.cpus.map convert_core else [])).flatten ∧
    (classify_clusters cls).2.2.2
      = (cls.map (fun cl => if startsWithEither cl.name 'E' 'e'
            then [] else cl.cpus.map convert_core)).flatten := by
  induction cls with
  | nil => simp [classify_clusters]
  | cons cl rest ih =>
    obtain ⟨ih1, ih2, ih3, ih4⟩ := ih
    by_cases he : startsWithEither cl.name 'E' 'e' <;>
      by_cases hp : startsWithEither cl.name 'P' 'p' <;>
        simp [classify_clusters, he, hp, ih1, ih2, ih3, ih4]

/-- Claim C10: in `convert_snapshot`, every core of a cluster whose name
does not start with 'E' or 'e' — including cores of clusters with
unrecognized prefixes, which are themselves excluded from both
cluster-level lists — lands in `p_cores` (in order), and the P-class
aggregation consumes exactly that `p_cores` list as its core-level
fallback input. -/
theorem convert_snapshot_core_routing (raw : RawSnapshot) :
    (convert_snapshot raw).cpu.p_cores
      = (raw.processor.clusters.map (fun cl =>
          if startsWithEither cl.name 'E' 'e' then []
          else cl.cpus.map convert_core)).flatten ∧
    (convert_snapshot raw).cpu.e_cores
      = (raw.processor.clusters.map (fun cl =>
          if startsWithEither cl.name 'E' 'e'
          then cl.cpus.map convert_core else [])).flatten ∧
    (classify_clusters raw.processor.clusters).1
      = ((raw.processor.clusters.filter (fun cl =>
            startsWithEither cl.name 'E' 'e')).map cluster_data_of) ∧
    (classify_clusters raw.processor.clusters).2.1
      = ((raw.processor.clusters.filter (fun cl =>
            !startsWithEither cl.name 'E' 'e' &&
              startsWithEither cl.name 'P' 'p')).map cluster_data_of) ∧
    ((convert_snapshot raw).cpu.p_cluster_active,
      (convert_snapshot raw).cpu.p_cluster_freq_mhz)
      = aggregate_cluster (classify_clusters raw.processor.clusters).2.1
          (convert_snapshot raw).cpu.p_cores 'P' := by
  obtain ⟨h1, h2, h3, h4⟩ := classify_clusters_spec raw.processor.clusters
  refine ⟨?_, ?_, h1, h2, ?_⟩
  · show (classify_clusters raw.processor.clusters).2.2.2 = _
    exact h4
  · show (classify_clusters raw.processor.clusters).2.2.1 = _
    exact h3
  · rfl

/-- Splitting never yields an empty fragment list. -/
theorem split_frames_ne_nil (l : List ℕ) : split_frames l ≠ [] := by
  cases l with
  | nil => simp [split_frames]
  | cons b rest =>
    unfold split_frames
    split
    · simp
    · cases h : split_frames rest <;> simp

/-- Splitting a window that starts with the sentinel yields a leading
empty fragment. -/
theorem split_frames_cons_zero (l : List ℕ) :
    split_frames (0 :: l) = [] :: split_frames l := by
  conv_lhs => rw [split_frames]
  rw [if_pos rfl]

/-- Splitting a window that starts with a non-sentinel byte prepends that
byte to the first fragment. -/
theorem split_frames_cons_ne (b : ℕ) (l : List ℕ) (hb : b ≠ 0)
    (c : List ℕ) (cs : List (List ℕ)) (h : split_frames l = c :: cs) :
    split_frames (b :: l) = (b :: c) :: cs := by
  conv_lhs => rw [split_frames]
  rw [if_neg hb, h]

/-- A sentinel byte separates the fragments of the two sides. -/
theorem split_frames_append_zero (xs ys : List ℕ) :
    split_frames (xs ++ 0 :: ys) = split_frames xs ++ split_frames ys := by
  induction xs with
  | nil => simp [split_frames_cons_zero, split_frames]
  | cons b rest ih =>
    by_cases hb : b = 0
    · subst hb
      rw [List.cons_append, split_frames_cons_zero, split_frames_cons_zero, ih]
      rfl
    · obtain ⟨c, cs, h⟩ : ∃ c cs, split_frames rest = c :: cs := by
        cases h : split_frames rest with
        | nil => exact absurd h (split_frames_ne_nil rest)
        | cons c cs => exact ⟨c, cs, rfl⟩
      rw [List.cons_append,
        split_frames_cons_ne b _ hb (c ++ []) (cs ++ split_frames ys) (by
          rw [ih, h]
          cases cs <;> simp),
        split_frames_cons_ne b rest hb c cs h]
      simp

/-- A sentinel-free window is one single fragment. -/
theorem split_frames_of_no_zero (l : List ℕ) (h : 0 ∉ l) : split_frames l = [l] := by
  induction l with
  | nil => simp [split_frames]
  | cons b rest ih =>
    have hb : b ≠ 0 := fun hb => h (hb ▸ List.mem_cons_self b rest)
    have hr : 0 ∉ rest := fun hr => h (List.mem_cons_of_mem b hr)
    exact split_frames_cons_ne b rest hb rest [] (ih hr)

/-- Claim C5: `parse_powermetrics` returns `Ok(None)` — not an error —
when the artifact does not exist, is empty, or no fragment decodes; on a
nonempty read it never errors, it splits the window on the null-byte
sentinel, discards empty fragments, tries fragments from the most recent
backward and returns the first that decodes; in particular a truncated
(undecodable, sentinel-free) trailing fragment never masks an earlier
complete record and never produces an error. -/
theorem parse_powermetrics_claim (decode : List ℕ → Option RawSnapshot)
    (bytes : List ℕ) (clean : Bool) (hne : bytes ≠ []) :
    parse_powermetrics decode .noFile = .ok none ∧
    parse_powermetrics decode .emptyFile = .ok none ∧
    (∀ msg, parse_powermetrics decode (.readData bytes clean) ≠ .error msg) ∧
    parse_powermetrics decode (.readData bytes clean)
      = .ok ((((split_frames bytes).filter (fun c => !c.isEmpty)).reverse.findSome?
            decode).map convert_snapshot) ∧
    (∀ pre trunc, bytes = pre ++ 0 :: trunc → trunc ≠ [] → 0 ∉ trunc →
      decode trunc = none →
      parse_powermetrics decode (.readData bytes clean)
        = .ok ((((split_frames pre).filter (fun c => !c.isEmpty)).reverse.findSome?
              decode).map convert_snapshot)) := by
  have hbe : bytes.isEmpty = false := by
    cases bytes with
    | nil => exact absurd rfl hne
    | cons a l => rfl
  have hmain : parse_powermetrics decode (.readData bytes clean)
      = .ok ((((split_frames bytes).filter (fun c => !c.isEmpty)).reverse.findSome?
            decode).map convert_snapshot) := by
    simp only [parse_powermetrics, hbe, Bool.false_and, Bool.false_eq_true, if_false]
    cases hf : ((split_frames bytes).filter (fun c => !c.isEmpty)).reverse.findSome? decode with
    | none => rfl
    | some s => rfl
  refine ⟨rfl, rfl, ?_, hmain, ?_⟩
  · intro msg hcontra
    rw [hmain] at hcontra
    exact Except.noConfusion hcontra
  · intro pre trunc hsplit htne htz hdec
    rw [hmain, hsplit, split_frames_append_zero, split_frames_of_no_zero trunc htz]
    have htruncne : (!trunc.isEmpty) = true := by
      cases trunc with
      | nil => exact absurd rfl htne
      | cons a l => rfl
    simp [List.filter_append, List.filter_cons, htruncne, List.reverse_append,
      List.findSome?_cons, hdec]

/-- Claim C5 witness: the window `[1, 0, 2]` whose trailing fragment
`[2]` does not decode still yields the record decoded from the earlier
fragment `[1]`, and a missing artifact yields `Ok(None)`. -/
theorem parse_powermetrics_claim_witness :
    parse_powermetrics decode_fixture (.readData [1, 0, 2] true)
      = .ok (some (convert_snapshot raw_fixture)) ∧
    parse_powermetrics decode_fixture .noFile = .ok none := by
  have h := parse_powermetrics_claim decode_fixture [1, 0, 2] true (by decide)
  constructor
  · have h5 := h.2.2.2.2 [1] [2] rfl (by decide) (by decide) rfl
    rw [h5]
    rfl
  · exact h.1

/-- `update_power_stats` does not touch the sample counter. -/
theorem update_power_stats_samples (s : AppState) :
    (s.update_power_stats).samples_taken = s.samples_taken := rfl

/-- `update_power_stats` does not touch the dedup timestamp. -/
theorem update_power_stats_last (s : AppState) :
    (s.update_power_stats).last_timestamp = s.last_timestamp := rfl

/-- `update_power_stats` does not touch the configuration. -/
theorem update_power_stats_config (s : AppState) :
    (s.update_power_stats).config = s.config := rfl

/-- Accepting a reading increments the sample counter by exactly one. -/
theorem accept_reading_samples (s : AppState) (reading : PowermetricsReading)
    (env : Env) :
    (s.accept_reading reading env).samples_taken = s.samples_taken + 1 := rfl

/-- Accepting a reading records its timestamp as the new dedup guard. -/
theorem accept_reading_last (s : AppState) (reading : PowermetricsReading)
    (env : Env) :
    (s.accept_reading reading env).last_timestamp = some reading.timestamp := rfl

/-- Accepting a reading does not touch the configuration. -/
theorem accept_reading_config (s : AppState) (reading : PowermetricsReading)
    (env : Env) :
    (s.accept_reading reading env).config = s.config := rfl

/-- Claim C3: `update_if_new` accepts a reading iff `last_timestamp` is
unset or the reading's timestamp is strictly greater; a rejected reading
leaves the whole session state unchanged; each acceptance increments
`samples_taken` by one and records the timestamp; and for readings with
timestamps [T, T, T+1] (from a fresh dedup guard) exactly the first and
third are accepted, so `samples_taken` rises by exactly two. -/
theorem update_if_new_dedup (s : AppState) (reading : PowermetricsReading)
    (env : Env) :
    ((s.update_if_new reading env).1 = true ↔
      s.last_timestamp = none ∨
        ∃ l, s.last_timestamp = some l ∧ l < reading.timestamp) ∧
    ((s.update_if_new reading env).1 = false →
      (s.update_if_new reading env).2 = s) ∧
    ((s.update_if_new reading env).1 = true →
      (s.update_if_new reading env).2.samples_taken = s.samples_taken + 1 ∧
      (s.update_if_new reading env).2.last_timestamp = some reading.timestamp) ∧
    (∀ T (r1 r2 r3 : PowermetricsReading) (e1 e2 e3 : Env),
      s.last_timestamp = none →
      r1.timestamp = T → r2.timestamp = T → r3.timestamp = T + 1 →
      ((s.update_if_new r1 e1).1 = true ∧
       (((s.update_if_new r1 e1).2).update_if_new r2 e2).1 = false ∧
       ((((s.update_if_new r1 e1).2).update_if_new r2 e2).2.update_if_new r3 e3).1
         = true ∧
       ((((s.update_if_new r1 e1).2).update_if_new r2 e2).2.update_if_new
           r3 e3).2.samples_taken
         = s.samples_taken + 2)) := by
  have hgen : ∀ (q : AppState) (r : PowermetricsReading) (e : Env),
      ((q.update_if_new r e).1 = true ↔
        q.last_timestamp = none ∨ ∃ l, q.last_timestamp = some l ∧ l < r.timestamp) ∧
      ((q.update_if_new r e).1 = false → (q.update_if_new r e).2 = q) ∧
      ((q.update_if_new r e).1 = true →
        (q.update_if_new r e).2.samples_taken = q.samples_taken + 1 ∧
        (q.update_if_new r e).2.last_timestamp = some r.timestamp) := by
    intro q r e
    cases hl : q.last_timestamp with
    | none =>
      refine ⟨by simp [AppState.update_if_new, hl], ?_, ?_⟩
      · simp [AppState.update_if_new, hl]
      · intro _
        simp [AppState.update_if_new, hl, accept_reading_samples, accept_reading_last]
    | some last =>
      by_cases hle : r.timestamp ≤ last
      · refine ⟨?_, ?_, ?_⟩
        · simp only [AppState.update_if_new, hl, if_pos hle]
          simp
          omega
        · intro _
          simp [AppState.update_if_new, hl, if_pos hle]
        · intro hcontra
          simp [AppState.update_if_new, hl, if_pos hle] at hcontra
      · refine ⟨?_, ?_, ?_⟩
        · simp only [AppState.update_if_new, hl, if_neg hle]
          simp
          omega
        · intro hcontra
          simp [AppState.update_if_new, hl, if_neg hle] at hcontra
        · intro _
          simp [AppState.update_if_new, hl, if_neg hle,
            accept_reading_samples, accept_reading_last]
  refine ⟨(hgen s reading env).1, (hgen s reading env).2.1, (hgen s reading env).2.2, ?_⟩
  intro T r1 r2 r3 e1 e2 e3 hnone h1 h2 h3
  have ha1 : (s.update_if_new r1 e1).1 = true := by
    rw [(hgen s r1 e1).1]
    exact Or.inl hnone
  obtain ⟨hs1, hl1⟩ := (hgen s r1 e1).2.2 ha1
  set s1 := (s.update_if_new r1 e1).2 with hs1def
  have ha2 : (s1.update_if_new r2 e2).1 = false := by
    rcases Bool.eq_false_or_eq_true (s1.update_if_new r2 e2).1 with h | h
    swap
    · exact h
    · exfalso
      rcases (hgen s1 r2 e2).1.mp h with hc | ⟨l, hc, hlt⟩
      · rw [hl1] at hc; exact Option.noConfusion hc
      · rw [hl1] at hc
        injection hc with hc
        omega
  have hrej : (s1.update_if_new r2 e2).2 = s1 := (hgen s1 r2 e2).2.1 ha2
  have ha3 : ((s1.update_if_new r2 e2).2.update_if_new r3 e3).1 = true := by
    rw [hrej, (hgen s1 r3 e3).1]
    exact Or.inr ⟨T, by rw [hl1, h1], by omega⟩
  obtain ⟨hs3, _⟩ := (hgen (s1.update_if_new r2 e2).2 r3 e3).2.2 ha3
  refine ⟨ha1, ha2, ha3, ?_⟩
  rw [hs3, hrej, hs1]

/-- Claim C3 witness: from the fresh state, feeding timestamps 5, 5, 6
accepts exactly the first and third, raising `samples_taken` by two. -/
theorem update_if_new_dedup_witness :
    state_fixture.last_timestamp = none ∧
    (state_fixture.update_if_new (reading_fixture 5) env_fixture).1 = true ∧
    (((state_fixture.update_if_new (reading_fixture 5) env_fixture).2).update_if_new
        (reading_fixture 5) env_fixture).1 = false ∧
    ((((state_fixture.update_if_new (reading_fixture 5) env_fixture).2).update_if_new
        (reading_fixture 5) env_fixture).2.update_if_new (reading_fixture 6)
        env_fixture).1 = true ∧
    ((((state_fixture.update_if_new (reading_fixture 5) env_fixture).2).update_if_new
        (reading_fixture 5) env_fixture).2.update_if_new (reading_fixture 6)
        env_fixture).2.samples_taken
      = state_fixture.samples_taken + 2 := by
  have h := (update_if_new_dedup state_fixture (reading_fixture 5) env_fixture).2.2.2
    5 (reading_fixture 5) (reading_fixture 5) (reading_fixture 6)
    env_fixture env_fixture env_fixture rfl rfl rfl rfl
  exact ⟨rfl, h.1, h.2.1, h.2.2.1, h.2.2.2⟩

/-- Claim C4: whenever `max_count > 0` and `samples_taken` has reached
it, the loop's restart check requests a supervisor restart, installs the
fresh session token, resets `samples_taken` to 0 and `last_timestamp` to
none, so the next reading is accepted whatever its timestamp; when the
trigger condition fails, nothing happens. -/
theorem restart_trigger (s : AppState) (timecode fresh : ℕ)
    (h1 : 0 < s.config.max_count) (h2 : s.config.max_count ≤ s.samples_taken) :
    (run_ui_restart_check s timecode fresh).2.2 = true ∧
    (run_ui_restart_check s timecode fresh).2.1 = fresh ∧
    (run_ui_restart_check s timecode fresh).1.samples_taken = 0 ∧
    (run_ui_restart_check s timecode fresh).1.last_timestamp = none ∧
    (∀ (r : PowermetricsReading) (e : Env),
      (((run_ui_restart_check s timecode fresh).1).update_if_new r e).1 = true) ∧
    (∀ (s2 : AppState) (tc2 f2 : ℕ),
      ¬(0 < s2.config.max_count ∧ s2.config.max_count ≤ s2.samples_taken) →
      run_ui_restart_check s2 tc2 f2 = (s2, tc2, false)) := by
  have hcond : 0 < s.config.max_count ∧ s.config.max_count ≤ s.samples_taken := ⟨h1, h2⟩
  refine ⟨?_, ?_, ?_, ?_, ?_, ?_⟩
  · simp [run_ui_restart_check, hcond]
  · simp [run_ui_restart_check, hcond]
  · simp [run_ui_restart_check, hcond]
  · simp [run_ui_restart_check, hcond]
  · intro r e
    simp [run_ui_restart_check, hcond, AppState.update_if_new]
  · intro s2 tc2 f2 hn
    simp [run_ui_restart_check, hn]

/-- Claim C4 witness: with `max_count = 2` and two samples taken, the
check restarts, installs token 11, resets the counters, and a reading
with timestamp 1 (below the previous guard 9) is then accepted. -/
theorem restart_trigger_witness :
    0 < state_fixture_full.config.max_count ∧
    state_fixture_full.config.max_count ≤ state_fixture_full.samples_taken ∧
    (run_ui_restart_check state_fixture_full 7 11).2.2 = true ∧
    (run_ui_restart_check state_fixture_full 7 11).2.1 = 11 ∧
    (run_ui_restart_check state_fixture_full 7 11).1.samples_taken = 0 ∧
    (run_ui_restart_check state_fixture_full 7 11).1.last_timestamp = none ∧
    ((run_ui_restart_check state_fixture_full 7 11).1.update_if_new
        (reading_fixture 1) env_fixture).1 = true := by
  have h := restart_trigger state_fixture_full 7 11 (by decide) (by decide)
  exact ⟨by decide, by decide, h.1, h.2.1, h.2.2.1, h.2.2.2.1,
    h.2.2.2.2.1 (reading_fixture 1) env_fixture⟩

/-- Claim C9: the peak trackers never decrease: `update_if_new` (both
branches), `apply_reading`, the restart check (which resets only the
counter and the dedup guard), and a full loop tick all leave each peak
at least as large as before. -/
theorem peaks_monotone (s : AppState) (reading : PowermetricsReading) (env : Env)
    (reading? : Option PowermetricsReading) (timecode fresh : ℕ) :
    (s.cpu_peak ≤ (s.update_if_new reading env).2.cpu_peak ∧
     s.gpu_peak ≤ (s.update_if_new reading env).2.gpu_peak ∧
     s.package_peak ≤ (s.update_if_new reading env).2.package_peak) ∧
    (s.cpu_peak ≤ (s.apply_reading reading env).cpu_peak ∧
     s.gpu_peak ≤ (s.apply_reading reading env).gpu_peak ∧
     s.package_peak ≤ (s.apply_reading reading env).package_peak) ∧
    ((run_ui_restart_check s timecode fresh).1.cpu_peak = s.cpu_peak ∧
     (run_ui_restart_check s timecode fresh).1.gpu_peak = s.gpu_peak ∧
     (run_ui_restart_check s timecode fresh).1.package_peak = s.package_peak) ∧
    (s.cpu_peak ≤ (run_ui_tick s timecode reading? env fresh).1.cpu_peak ∧
     s.gpu_peak ≤ (run_ui_tick s timecode reading? env fresh).1.gpu_peak ∧
     s.package_peak ≤ (run_ui_tick s timecode reading? env fresh).1.package_peak) := by
  have hacc : ∀ (q : AppState) (r : PowermetricsReading) (e : Env),
      q.cpu_peak ≤ (q.accept_reading r e).cpu_peak ∧
      q.gpu_peak ≤ (q.accept_reading r e).gpu_peak ∧
      q.package_peak ≤ (q.accept_reading r e).package_peak := by
    intro q r e
    exact ⟨le_max_left _ _, le_max_left _ _, le_max_left _ _⟩
  have hupd : ∀ (q : AppState) (r : PowermetricsReading) (e : Env),
      q.cpu_peak ≤ (q.update_if_new r e).2.cpu_peak ∧
      q.gpu_peak ≤ (q.update_if_new r e).2.gpu_peak ∧
      q.package_peak ≤ (q.update_if_new r e).2.package_peak := by
    intro q r e
    unfold AppState.update_if_new
    cases hl : q.last_timestamp with
    | none => exact hacc q r e
    | some last =>
      by_cases hle : r.timestamp ≤ last
      · simp [hle]
      · simpa [hle] using hacc q r e
  have happl : ∀ (q : AppState) (r : PowermetricsReading) (e : Env),
      q.cpu_peak ≤ (q.apply_reading r e).cpu_peak ∧
      q.gpu_peak ≤ (q.apply_reading r e).gpu_peak ∧
      q.package_peak ≤ (q.apply_reading r e).package_peak := by
    intro q r e
    exact ⟨le_max_left _ _, le_max_left _ _, le_max_left _ _⟩
  have hrc : ∀ (q : AppState) (tc f : ℕ),
      (run_ui_restart_check q tc f).1.cpu_peak = q.cpu_peak ∧
      (run_ui_restart_check q tc f).1.gpu_peak = q.gpu_peak ∧
      (run_ui_restart_check q tc f).1.package_peak = q.package_peak := by
    intro q tc f
    unfold run_ui_restart_check
    split <;> exact ⟨rfl, rfl, rfl⟩
  refine ⟨hupd s reading env, happl s reading env, hrc s timecode fresh, ?_⟩
  have hstep : s.cpu_peak ≤ (run_ui_sample_step s reading? env).cpu_peak ∧
      s.gpu_peak ≤ (run_ui_sample_step s reading? env).gpu_peak ∧
      s.package_peak ≤ (run_ui_sample_step s reading? env).package_peak := by
    cases reading? with
    | none => exact ⟨le_refl _, le_refl _, le_refl _⟩
    | some r => exact hupd s r env
  have hrc2 := hrc (run_ui_sample_step s reading? env) timecode fresh
  unfold run_ui_tick
  refine ⟨?_, ?_, ?_⟩
  · rw [hrc2.1]; exact hstep.1
  · rw [hrc2.2.1]; exact hstep.2.1
  · rw [hrc2.2.2]; exact hstep.2.2

/-- Claim C2: on every accepted sample, each displayed power figure
equals its raw energy field divided by 1000 and then by
`max(interval, 1)` — the interval division is present for CPU, GPU, ANE
and package alike — and the presentation snapshot displays exactly these
state fields as `current`. -/
theorem power_conversion (s : AppState) (raw : RawSnapshot) (env : Env)
    (hacc : (s.update_if_new (convert_snapshot raw) env).1 = true) :
    (s.update_if_new (convert_snapshot raw) env).2.cpu_power
      = raw.processor.cpu_energy / 1000 / ((max s.config.interval 1 : ℕ) : ℚ) ∧
    (s.update_if_new (convert_snapshot raw) env).2.gpu_power
      = raw.processor.gpu_energy / 1000 / ((max s.config.interval 1 : ℕ) : ℚ) ∧
    (s.update_if_new (convert_snapshot raw) env).2.ane_power
      = raw.processor.ane_energy / 1000 / ((max s.config.interval 1 : ℕ) : ℚ) ∧
    (s.update_if_new (convert_snapshot raw) env).2.package_power
      = raw.processor.combined_power / 1000 / ((max s.config.interval 1 : ℕ) : ℚ) ∧
    (∀ q : AppState, q.snapshot_cpu_power.current = q.cpu_power ∧
      q.snapshot_gpu_power.current = q.gpu_power ∧
      q.snapshot_package_power.current = q.package_power) := by
  have h2 : (s.update_if_new (convert_snapshot raw) env).2
      = s.accept_reading (convert_snapshot raw) env := by
    unfold AppState.update_if_new
    cases hl : s.last_timestamp with
    | none => rfl
    | some last =>
      by_cases hle : (convert_snapshot raw).timestamp ≤ last
      · exfalso
        unfold AppState.update_if_new at hacc
        rw [hl] at hacc
        simp [hle] at hacc
      · simp [hle]
  rw [h2]
  exact ⟨rfl, rfl, rfl, rfl, fun q => ⟨rfl, rfl, rfl⟩⟩

/-- Claim C2 witness: the fixture raw record (2 J CPU, 3 J package) is
accepted by the fresh state and yields the energy-over-interval powers. -/
theorem power_conversion_witness :
    (state_fixture.update_if_new (convert_snapshot raw_fixture) env_fixture).1 = true ∧
    (state_fixture.update_if_new (convert_snapshot raw_fixture) env_fixture).2.cpu_power
      = raw_fixture.processor.cpu_energy / 1000
        / ((max state_fixture.config.interval 1 : ℕ) : ℚ) ∧
    (state_fixture.update_if_new (convert_snapshot raw_fixture) env_fixture).2.package_power
      = raw_fixture.processor.combined_power / 1000
        / ((max state_fixture.config.interval 1 : ℕ) : ℚ) := by
  have hacc : (state_fixture.update_if_new (convert_snapshot raw_fixture) env_fixture).1
      = true := rfl
  have h := power_conversion state_fixture raw_fixture env_fixture hacc
  exact ⟨hacc, h.1, h.2.2.2.1⟩
